import Mathlib

/-!
Shallow embedding of `xonsh/dirstack.py`: the directory stack, the working
directory mutator, and the `cd`, `pushd`, `popd` and `dirs` command
operations.

Filesystem and path-library primitives (`os.path.isdir`, `os.path.exists`,
`os.access`, `os.chdir`, `os.path.expanduser`, `os.path.abspath`,
`os.path.join`, `os.path.basename`, `get_sep`, and the CDPATH glob search of
`_try_cdpath`) are external collaborators of this module; they are modelled
as an explicit oracle record `OSModel`.  The xonsh environment store is the
record `Env` (with `PWD` assumed present, as every operation dereferences
it).  The `events.on_chdir.fire` publication is modelled as appending an
`(old, new)` pair to an event log.  The Python return values of the
commands, which are 3-tuples `(stdout, stderr, returncode)` everywhere
except for one bare 2-tuple in `dirs`, are the type `PyRet`.

String primitives of Python (`str.startswith`, slicing, `int()`,
`str.replace`, `str.join`, `os.path.basename`) are given structurally
recursive models so that every definition evaluates by kernel reduction.
-/

namespace Dirstack

/-- Result of a command operation: Python returns either a 3-tuple
`(stdout, stderr, returncode)` (with `None` as absence) or, in exactly one
place (`dirs` on an argument-parse failure, source line 339), a bare
2-tuple `(stdout, stderr)`. -/
inductive PyRet where
  | triple (out err : Option String) (code : Int)
  | pair (out err : Option String)
deriving DecidableEq

/-- Model of `s.startswith(t)` / `str.startswith`. -/
def strStarts (s t : String) : Bool :=
  t.data.isPrefixOf s.data

/-- Model of `s.endswith(t)` / `str.endswith`. -/
def strEnds (s t : String) : Bool :=
  t.data.reverse.isPrefixOf s.data.reverse

/-- Model of the Python slice `s[n:]`. -/
def strDrop (s : String) (n : Nat) : String :=
  ⟨s.data.drop n⟩

/-- Model of the Python slice `s[:-1]` (drop the last character). -/
def strDropLast (s : String) : String :=
  ⟨s.data.dropLast⟩

/-- A run of `n` spaces, as produced by `' ' * n`. -/
def strSpaces (n : Nat) : String :=
  ⟨List.replicate n ' '⟩

/-- Model of Python `sep.join(xs)`. -/
def strJoin (sep : String) : List String → String
  | [] => ""
  | x :: xs => xs.foldl (fun acc y => acc ++ sep ++ y) x

/-- Decimal digits to a natural number. -/
def strToNat (s : String) : Option Nat :=
  if !s.data.isEmpty && s.data.all (·.isDigit) then
    some (s.data.foldl (fun n c => n * 10 + (c.toNat - 48)) 0)
  else none

/-- Model of Python `int(s)` on its modeled domain: an optional single
leading sign followed by one or more decimal digits (whitespace and
underscore forms are outside the modeled domain, matching the spec's
"the integer is taken from the characters following the sign; a
non-numeric remainder fails"). -/
def pyInt (s : String) : Option Int :=
  if strStarts s "-" then (strToNat (strDrop s 1)).map (fun n => -(n : Int))
  else if strStarts s "+" then (strToNat (strDrop s 1)).map (fun n => (n : Int))
  else (strToNat s).map (fun n => (n : Int))

/-- Fuel-indexed worker for `pyReplace`; the fuel is the length of the
remaining input, so recursion is structural. -/
def pyReplaceAux (pat repl : List Char) : Nat → List Char → List Char
  | 0, l => l
  | _ + 1, [] => []
  | fuel + 1, c :: rest =>
    if pat.isPrefixOf (c :: rest) then
      repl ++ pyReplaceAux pat repl fuel ((c :: rest).drop pat.length)
    else
      c :: pyReplaceAux pat repl fuel rest

/-- Model of Python `s.replace(pat, repl)`: every leftmost non-overlapping
occurrence of `pat` in `s` is replaced by `repl`.  The empty pattern is
outside the modeled domain (it never arises: the pattern used is the
expansion of `~`). -/
def pyReplace (s pat repl : String) : String :=
  if pat = "" then s
  else ⟨pyReplaceAux pat.data repl.data s.data.length s.data⟩

/-- Model of `os.path.basename` for POSIX paths: the part after the last
separator.  Used only by the concrete oracle instances below. -/
def pyBasename (s : String) : String :=
  ⟨s.data.foldl (fun acc c => if c = '/' then [] else acc ++ [c]) []⟩

/-- Oracle record for the external filesystem / path-library collaborators.
`tryCdpath` models `_try_cdpath` (source lines 53-68), whose CDPATH glob
search is driven entirely by external collaborators (`glob.iglob`,
`__xonsh_expand_path__`); the function falls back to its argument when no
search root matches. -/
structure OSModel where
  isdir : String → Bool
  pathExists : String → Bool
  access : String → Bool
  chdirOk : String → Bool
  expanduser : String → String
  abspath : String → String
  join : String → String → String
  sep : String
  basename : String → String
  tryCdpath : List String → String → String

/-- The environment variables this module reads and writes.  `PWD` is
modelled as always present (every operation dereferences `env['PWD']`);
`OLDPWD` may be unset. -/
structure Env where
  pwd : String
  oldpwd : Option String
  cdpath : List String
  autoPushd : Bool
  pushdMinus : Bool
  pushdSilent : Bool
  dirstackSize : Nat
deriving DecidableEq

/-- Process-wide mutable state: the environment, the global `DIRSTACK`
list, and the log of fired `on_chdir` events. -/
structure Shell where
  env : Env
  dirstack : List String
  events : List (String × String)
deriving DecidableEq

/-- The environment update performed by `_change_working_directory`
(source lines 30-46): join the old `PWD` with the requested path, take the
absolute path and attempt `os.chdir`.  On success set `OLDPWD` and `PWD`;
on failure, strip one trailing separator character and, if the basename is
`..`, still set `PWD` to the (non-absolute) computed value. -/
def cwd_env (os : OSModel) (e : Env) (newdir : String) : Env :=
  let old := e.pwd
  let new := os.join old newdir
  let absnew := os.abspath new
  if os.chdirOk absnew then
    { e with oldpwd := some old, pwd := absnew }
  else
    let new2 := if strEnds new os.sep then strDropLast new else new
    if os.basename new2 = ".." then { e with pwd := new2 } else e

/-- `_change_working_directory` (source lines 30-50): apply `cwd_env` and
fire the `on_chdir` event exactly when the resulting `PWD` differs from
the old one. -/
def change_working_directory (os : OSModel) (s : Shell) (newdir : String) : Shell :=
  let old := s.env.pwd
  let env2 := cwd_env os s.env newdir
  if old ≠ env2.pwd then
    { s with env := env2, events := s.events ++ [(old, env2.pwd)] }
  else
    { s with env := env2 }

/-- Parsed options of `pushd` (and of `popd`, which reuses the same
parser): optional positional `dir`, `-n` stored as `cd := false`, `-q`
stored as `quiet := true`. -/
structure PushdArgs where
  dir : Option String
  cd : Bool
  quiet : Bool
deriving DecidableEq

/-- Whether argparse treats a `-`-leading token as a negative-number-like
positional rather than an unknown option. -/
def negNumberLike (t : String) : Bool :=
  strStarts t "-" && !(strDrop t 1).data.isEmpty && (strDrop t 1).data.all (·.isDigit)

/-- Worker for `parse_pushd`: one pass over the tokens, accumulating the
flags and at most one positional; an unknown `-` option or a second
positional is a parse failure (`argparse` raises `SystemExit`). -/
def parsePushdTokens : List String → PushdArgs → Option PushdArgs
  | [], acc => some acc
  | t :: rest, acc =>
    if t = "-n" then parsePushdTokens rest { acc with cd := false }
    else if t = "-q" then parsePushdTokens rest { acc with quiet := true }
    else if strStarts t "-" && !(t == "-") && !negNumberLike t then none
    else
      match acc.dir with
      | none => parsePushdTokens rest { acc with dir := some t }
      | some _ => none

/-- Model of `pushd_parser.parse_args` (source lines 122-136) on its
modeled domain (no combined short flags, no `--`). -/
def parse_pushd (args : List String) : Option PushdArgs :=
  parsePushdTokens args { dir := none, cd := true, quiet := false }

/-- Parsed options of `dirs`: optional positional `N`, flags `-c`, `-p`,
`-v`, `-l`. -/
structure DirsArgs where
  N : Option String
  clear : Bool
  print_long : Bool
  verbose : Bool
  long : Bool
deriving DecidableEq

/-- Worker for `parse_dirs`, analogous to `parsePushdTokens`. -/
def parseDirsTokens : List String → DirsArgs → Option DirsArgs
  | [], acc => some acc
  | t :: rest, acc =>
    if t = "-c" then parseDirsTokens rest { acc with clear := true }
    else if t = "-p" then parseDirsTokens rest { acc with print_long := true }
    else if t = "-v" then parseDirsTokens rest { acc with verbose := true }
    else if t = "-l" then parseDirsTokens rest { acc with long := true }
    else if strStarts t "-" && !(t == "-") && !negNumberLike t then none
    else
      match acc.N with
      | none => parseDirsTokens rest { acc with N := some t }
      | some _ => none

/-- Model of `dirs_parser.parse_args` (source lines 301-326) on its
modeled domain. -/
def parse_dirs (args : List String) : Option DirsArgs :=
  parseDirsTokens args { N := none, clear := false, print_long := false,
                         verbose := false, long := false }

/-- `dirs` (source lines 329-399).  On a parse failure the source returns
the bare 2-tuple `None, None` (line 339).  Note that the source assigns
the same `(BACKWARD, FORWARD)` pair in both branches of its `PUSHD_MINUS`
conditional (lines 344-349); this is reproduced verbatim. -/
def dirs (os : OSModel) (s : Shell) (args : List String) : Shell × PyRet :=
  match parse_dirs args with
  | none => (s, .pair none none)
  | some a =>
    let dirstack := os.expanduser s.env.pwd :: s.dirstack
    let BACKWARD := if s.env.pushdMinus then "-" else "-"
    let FORWARD := if s.env.pushdMinus then "+" else "+"
    if a.clear then ({ s with dirstack := [] }, .triple none none 0)
    else
      let o := if a.long then dirstack
               else dirstack.map (fun i => pyReplace i (os.expanduser "~") "~")
      let out :=
        if a.verbose then
          let pad := (toString (o.length - 1)).length
          strDrop
            (o.foldl (fun (acc : String × Nat) e =>
              (acc.1 ++ "\n" ++ strSpaces (pad - (toString acc.2).length)
                ++ toString acc.2 ++ " " ++ e, acc.2 + 1)) ("", 0)).1 1
        else if a.print_long then strJoin "\n" o
        else strJoin " " o
      match a.N with
      | none => (s, .triple (some (out ++ "\n")) none 0)
      | some N =>
        match pyInt (strDrop N 1) with
        | none => (s, .triple none (some ("Invalid argument to dirs: " ++ N ++ "\n")) 1)
        | some num =>
          if num < 0 then
            (s, .triple none
              (some ("Invalid argument to dirs: " ++ toString o.length ++ "\n")) 1)
          else if num ≥ (o.length : Int) then
            (s, .triple none
              (some ("Too few elements in dirstack (" ++ toString o.length
                ++ " elements)\n")) 1)
          else if strStarts N BACKWARD then
            (s, .triple (some (o.getD num.toNat "" ++ "\n")) none 0)
          else if strStarts N FORWARD then
            (s, .triple (some (o.getD (o.length - 1 - num.toNat) "" ++ "\n")) none 0)
          else (s, .triple none (some ("Invalid argument to dirs: " ++ N ++ "\n")) 1)

/-- The stack truncation at the end of `pushd` (source lines 205-207):
drop overflow entries beyond `DIRSTACK_SIZE` from the tail. -/
def truncStack (s1 : Shell) : Shell :=
  if s1.dirstack.length > s1.env.dirstackSize then
    { s1 with dirstack := s1.dirstack.take s1.env.dirstackSize }
  else s1

/-- The shared epilogue of `pushd` and `popd` (source lines 209-212 and
295-298): unless `-q` or `PUSHD_SILENT` suppresses it, return the `dirs`
listing, else return the silent success triple. -/
def finishListing (os : OSModel) (quiet : Bool) (s2 : Shell) : Shell × PyRet :=
  if !quiet && !s2.env.pushdSilent then dirs os s2 []
  else (s2, .triple none none 0)

/-- The rotation-target selection of `pushd` (source lines 163-197):
no argument pops the front entry; an existing directory is used directly;
otherwise the argument is a sign-indexed token interpreted through
`(BACKWARD, FORWARD) = ('+', '-')` by default and swapped when
`PUSHD_MINUS` is set.  Returns the optional rotation target together with
the stack after any removal. -/
def pushd_rotate (os : OSModel) (pm : Bool) (stack : List String)
    (dir : Option String) : Except String (Option String × List String) :=
  let BACKWARD := if pm then "-" else "+"
  let FORWARD := if pm then "+" else "-"
  match dir with
  | none =>
    match stack with
    | [] => .error "pushd: Directory stack is empty\n"
    | top :: rest => .ok (some top, rest)
  | some d =>
    if os.isdir d then .ok (some d, stack)
    else
      match pyInt (strDrop d 1) with
      | none => .error ("Invalid argument to pushd: " ++ d ++ "\n")
      | some num =>
        if num < 0 then .error ("Invalid argument to pushd: " ++ d ++ "\n")
        else if num > (stack.length : Int) then
          .error ("Too few elements in dirstack (" ++ toString stack.length
            ++ " elements)\n")
        else if strStarts d FORWARD then
          if num = (stack.length : Int) then .ok (none, stack)
          else .ok (some (stack.getD (stack.length - 1 - num.toNat) ""),
                    stack.eraseIdx (stack.length - 1 - num.toNat))
        else if strStarts d BACKWARD then
          if num = 0 then .ok (none, stack)
          else .ok (some (stack.getD (num.toNat - 1) ""),
                    stack.eraseIdx (num.toNat - 1))
        else .error ("Invalid argument to pushd: " ++ d ++ "\n")

/-- `pushd` (source lines 139-212).  When a rotation target was produced,
either insert the expanded current `PWD` at the front and change directory
(default), or with `-n` insert the expanded target itself; then truncate
to `DIRSTACK_SIZE` and return the `dirs` listing unless suppressed. -/
def pushd (os : OSModel) (s : Shell) (args : List String) : Shell × PyRet :=
  match parse_pushd args with
  | none => (s, .triple none none 1)
  | some a =>
    let pwd := s.env.pwd
    match pushd_rotate os s.env.pushdMinus s.dirstack a.dir with
    | .error e => (s, .triple none (some e) 1)
    | .ok (new_pwd, stack1) =>
      let s1 :=
        match new_pwd with
        | some np =>
          if a.cd then
            change_working_directory os
              { s with dirstack := os.expanduser pwd :: stack1 } np
          else { s with dirstack := os.expanduser np :: stack1 }
        | none => { s with dirstack := stack1 }
      finishListing os a.quiet (truncStack s1)

/-- The entry selection of `popd` (source lines 254-288).  Note that the
source assigns the same `(BACKWARD, FORWARD) = ('-', '+')` pair in both
branches of its `PUSHD_MINUS` conditional (lines 247-252); this is
reproduced verbatim.  A boundary index pops the front entry as the change
target; an interior index removes that entry without producing a target.
(The source raises an uncaught `IndexError` for a boundary index on an
empty stack, a state-preserving crash; the model keeps the state-preserving
part and returns the dummy popped value `""`.) -/
def popd_pop (pm : Bool) (stack : List String) (dir : Option String) :
    Except String (Option String × List String) :=
  let BACKWARD := if pm then "-" else "-"
  let FORWARD := if pm then "+" else "+"
  match dir with
  | none =>
    match stack with
    | [] => .error "popd: Directory stack is empty\n"
    | top :: rest => .ok (some top, rest)
  | some d =>
    match pyInt (strDrop d 1) with
    | none => .error ("Invalid argument to popd: " ++ d ++ "\n")
    | some num =>
      if num < 0 then .error ("Invalid argument to popd: " ++ d ++ "\n")
      else if num > (stack.length : Int) then
        .error ("Too few elements in dirstack (" ++ toString stack.length
          ++ " elements)\n")
      else if strStarts d FORWARD then
        if num = (stack.length : Int) then .ok (some (stack.headD ""), stack.tail)
        else .ok (none, stack.eraseIdx (stack.length - 1 - num.toNat))
      else if strStarts d BACKWARD then
        if num = 0 then .ok (some (stack.headD ""), stack.tail)
        else .ok (none, stack.eraseIdx (num.toNat - 1))
      else .error ("Invalid argument to popd: " ++ d ++ "\n")

/-- `popd` (source lines 232-298).  The source parses its arguments with
`pushd_parser` (line 241); the parse surface is identical, so the same
parse model is used.  No truncation is performed by `popd`. -/
def popd (os : OSModel) (s : Shell) (args : List String) : Shell × PyRet :=
  match parse_pushd args with
  | none => (s, .triple none none 1)
  | some a =>
    match popd_pop s.env.pushdMinus s.dirstack a.dir with
    | .error e => (s, .triple none (some e) 1)
    | .ok (new_pwd, stack1) =>
      let s1 := { s with dirstack := stack1 }
      let s2 :=
        match new_pwd with
        | some np => if a.cd then change_working_directory os s1 np else s1
        | none => s1
      finishListing os a.quiet s2

/-- Early-return-or-target outcome of `cd`'s destination resolution. -/
inductive CdResolved where
  | ret (r : PyRet)
  | target (d : String)
deriving DecidableEq

/-- The destination resolution of `cd` (source lines 81-108): home with no
argument; expand the user path; when it is not a directory, handle `-`
(previous directory), a `-`-leading numeric token as a 1-based stack index
(`-0` is an immediate silent success), or fall back to the CDPATH search;
two or more arguments are an error. -/
def cd_resolve (os : OSModel) (env : Env) (stack : List String)
    (args : List String) : CdResolved :=
  match args with
  | [] => .target (os.expanduser "~")
  | [a0] =>
    let d := os.expanduser a0
    if os.isdir d then .target d
    else if d = "-" then
      match env.oldpwd with
      | some o => .target o
      | none => .ret (.triple (some "") (some "cd: no previous directory stored\n") 1)
    else if strStarts d "-" then
      match pyInt (strDrop d 1) with
      | none =>
        .ret (.triple (some "") (some ("cd: Invalid destination: " ++ d ++ "\n")) 1)
      | some num =>
        if num = 0 then .ret (.triple none none 0)
        else if num < 0 then
          .ret (.triple (some "") (some ("cd: Invalid destination: " ++ d ++ "\n")) 1)
        else if num > (stack.length : Int) then
          .ret (.triple (some "")
            (some ("cd: Too few elements in dirstack (" ++ toString stack.length
              ++ " elements)\n")) 1)
        else .target (stack.getD (num.toNat - 1) "")
    else .target (os.tryCdpath env.cdpath d)
  | _ =>
    .ret (.triple (some "")
      (some ("cd takes 0 or 1 arguments, not " ++ toString args.length ++ "\n")) 1)

/-- `cd` (source lines 71-119): resolve the destination, validate it
(existence, directory-ness, search permission), auto-push the current
directory when `AUTO_PUSHD` is set (an internal `pushd -n -q PWD`,
source line 117), then change the working directory. -/
def cd (os : OSModel) (s : Shell) (args : List String) : Shell × PyRet :=
  match cd_resolve os s.env s.dirstack args with
  | .ret r => (s, r)
  | .target d =>
    if os.pathExists d then
      if os.isdir d then
        if os.access d then
          let s1 := if s.env.autoPushd then (pushd os s ["-n", "-q", s.env.pwd]).1
                    else s
          (change_working_directory os s1 d, .triple none none 0)
        else (s, .triple (some "") (some ("cd: permission denied: " ++ d ++ "\n")) 1)
      else (s, .triple (some "") (some ("cd: " ++ d ++ " is not a directory\n")) 1)
    else (s, .triple (some "") (some ("cd: no such file or directory: " ++ d ++ "\n")) 1)

/-- Concrete oracle for witnesses and counterexamples: every absolute path
is an existing, accessible directory; `~` expands to `/home/u`; joining is
POSIX-like; `chdir` always succeeds; the CDPATH search finds nothing. -/
def osA : OSModel :=
  { isdir := fun p => strStarts p "/"
    pathExists := fun p => strStarts p "/"
    access := fun _ => true
    chdirOk := fun _ => true
    expanduser := fun p => if p = "~" then "/home/u" else p
    abspath := fun p => p
    join := fun a b => if strStarts b "/" then b else a ++ "/" ++ b
    sep := "/"
    basename := pyBasename
    tryCdpath := fun _ p => p }

/-- Oracle where the relative name `rel` is also an existing directory. -/
def osRel : OSModel :=
  { osA with isdir := fun p => p == "rel" || strStarts p "/" }

/-- Oracle where every `os.chdir` call fails. -/
def osFail : OSModel :=
  { osA with chdirOk := fun _ => false }

/-- Oracle whose home directory is the short string `/h`, so that a home
occurrence can appear in the middle of a stack entry. -/
def osH : OSModel :=
  { osA with expanduser := fun p => if p = "~" then "/h" else p }

/-- Build a shell state with the given `PWD`, stack, `PUSHD_MINUS`,
`AUTO_PUSHD`, `PUSHD_SILENT` and `DIRSTACK_SIZE`; `OLDPWD` unset, empty
`CDPATH`, no events fired yet. -/
def mkShell (pwd : String) (stack : List String) (pm ap silent : Bool)
    (size : Nat) : Shell :=
  { env := { pwd := pwd, oldpwd := none, cdpath := [], autoPushd := ap,
             pushdMinus := pm, pushdSilent := silent, dirstackSize := size }
    dirstack := stack
    events := [] }


/-- `_change_working_directory` never touches the directory stack. -/
theorem cwd_dirstack (os : OSModel) (s : Shell) (d : String) :
    (change_working_directory os s d).dirstack = s.dirstack := by
  unfold change_working_directory
  dsimp only
  split <;> rfl

/-- The environment update of the mutator keeps `DIRSTACK_SIZE`. -/
theorem cwd_env_dirstackSize (os : OSModel) (e : Env) (d : String) :
    (cwd_env os e d).dirstackSize = e.dirstackSize := by
  unfold cwd_env
  dsimp only
  split
  · rfl
  · split <;> split <;> rfl

/-- `_change_working_directory` keeps `DIRSTACK_SIZE`. -/
theorem cwd_dirstackSize (os : OSModel) (s : Shell) (d : String) :
    (change_working_directory os s d).env.dirstackSize = s.env.dirstackSize := by
  unfold change_working_directory
  dsimp only
  split <;> exact cwd_env_dirstackSize os s.env d

/-- When the underlying `os.chdir` succeeds, the mutator sets `PWD` to the
absolute form of the joined path. -/
theorem cwd_pwd_ok (os : OSModel) (s : Shell) (d : String)
    (h : os.chdirOk (os.abspath (os.join s.env.pwd d)) = true) :
    (change_working_directory os s d).env.pwd = os.abspath (os.join s.env.pwd d) := by
  unfold change_working_directory cwd_env
  dsimp only
  rw [if_pos h]
  split <;> rfl

/-- When the underlying `os.chdir` fails and the basename fallback does not
apply, the mutator is a complete no-op: no variable update, no event. -/
theorem cwd_noop (os : OSModel) (s : Shell) (d : String)
    (hch : os.chdirOk (os.abspath (os.join s.env.pwd d)) = false)
    (hbn : ¬ os.basename (if strEnds (os.join s.env.pwd d) os.sep then
        strDropLast (os.join s.env.pwd d) else os.join s.env.pwd d) = "..") :
    change_working_directory os s d = s := by
  have henv : cwd_env os s.env d = s.env := by
    unfold cwd_env
    dsimp only
    rw [if_neg (by simp [hch]), if_neg hbn]
  unfold change_working_directory
  dsimp only
  rw [henv, if_neg (by simp)]

/-- The truncation step never leaves more than `DIRSTACK_SIZE` entries. -/
theorem truncStack_length_le (t : Shell) :
    (truncStack t).dirstack.length ≤ t.env.dirstackSize := by
  unfold truncStack
  split
  · simp [List.length_take]
  · omega

/-- Length of the stack after the truncation step. -/
theorem truncStack_length (t : Shell) :
    (truncStack t).dirstack.length = min t.dirstack.length t.env.dirstackSize := by
  unfold truncStack
  split
  · simp [List.length_take]; omega
  · simp; omega

/-- The truncation step never touches the environment. -/
theorem truncStack_env (t : Shell) : (truncStack t).env = t.env := by
  unfold truncStack
  split <;> rfl

/-- The truncation step is the identity on an in-bound stack. -/
theorem truncStack_id (t : Shell) (h : t.dirstack.length ≤ t.env.dirstackSize) :
    truncStack t = t := by
  unfold truncStack
  rw [if_neg (by omega)]

/-- The `pushd`/`popd` epilogue (a possible `dirs` listing call) returns
its input state unchanged. -/
theorem finishListing_fst (os : OSModel) (q : Bool) (s2 : Shell) :
    (finishListing os q s2).1 = s2 := by
  unfold finishListing
  split <;> rfl


/-- Removing an index never lengthens a list. -/
theorem eraseIdx_length_le (l : List String) (i : Nat) :
    (l.eraseIdx i).length ≤ l.length := by
  induction l generalizing i with
  | nil => simp [List.eraseIdx]
  | cons a t ih =>
    cases i with
    | zero => simp [List.eraseIdx]
    | succ j =>
      simp only [List.eraseIdx, List.length_cons]
      exact Nat.succ_le_succ (ih j)

/-- The rotation-target selection of `pushd` never lengthens the stack. -/
theorem pushd_rotate_stack_le (os : OSModel) (pm : Bool) (stack : List String)
    (dir : Option String) (np : Option String) (stack1 : List String)
    (h : pushd_rotate os pm stack dir = .ok (np, stack1)) :
    stack1.length ≤ stack.length := by
  unfold pushd_rotate at h
  cases dir with
  | none =>
    cases stack with
    | nil => simp at h
    | cons top rest =>
      dsimp only at h
      injection h with h'
      injection h' with ha hb
      rw [← hb]
      exact Nat.le_succ _
  | some d =>
    dsimp only at h
    repeat' split at h
    all_goals try exact Except.noConfusion h
    all_goals
      injection h with h'
    all_goals
      injection h' with ha hb
    all_goals rw [← hb]
    all_goals
      first
      | exact Nat.le_refl _
      | exact eraseIdx_length_le _ _

/-- The entry selection of `popd` never lengthens the stack. -/
theorem popd_pop_stack_le (pm : Bool) (stack : List String)
    (dir : Option String) (np : Option String) (stack1 : List String)
    (h : popd_pop pm stack dir = .ok (np, stack1)) :
    stack1.length ≤ stack.length := by
  unfold popd_pop at h
  cases dir with
  | none =>
    cases stack with
    | nil => simp at h
    | cons top rest =>
      dsimp only at h
      injection h with h'
      injection h' with ha hb
      rw [← hb]
      exact Nat.le_succ _
  | some d =>
    dsimp only at h
    repeat' split at h
    all_goals try exact Except.noConfusion h
    all_goals
      injection h with h'
    all_goals
      injection h' with ha hb
    all_goals rw [← hb]
    all_goals
      first
      | exact Nat.le_refl _
      | exact eraseIdx_length_le _ _
      | (rw [List.length_tail]; exact Nat.sub_le _ _)

/-- `dirs` never lengthens the stack (it clears it or leaves it alone). -/
theorem dirs_stack_le (os : OSModel) (s : Shell) (args : List String) :
    (dirs os s args).1.dirstack.length ≤ s.dirstack.length := by
  unfold dirs
  cases hp : parse_dirs args with
  | none => exact Nat.le_refl _
  | some a =>
    dsimp only
    repeat' split
    all_goals simp

/-- `pushd` preserves the stack-size invariant. -/
theorem pushd_stack_le (os : OSModel) (s : Shell) (args : List String)
    (h : s.dirstack.length ≤ s.env.dirstackSize) :
    (pushd os s args).1.dirstack.length ≤ s.env.dirstackSize := by
  unfold pushd
  cases hp : parse_pushd args with
  | none => exact h
  | some a =>
    dsimp only
    cases hr : pushd_rotate os s.env.pushdMinus s.dirstack a.dir with
    | error e => exact h
    | ok pr =>
      obtain ⟨np, stack1⟩ := pr
      dsimp only
      rw [finishListing_fst]
      cases np with
      | none => exact truncStack_length_le _
      | some np =>
        dsimp only
        split
        · have h1 := truncStack_length_le
            (change_working_directory os
              { s with dirstack := os.expanduser s.env.pwd :: stack1 } np)
          rwa [cwd_dirstackSize] at h1
        · exact truncStack_length_le _

/-- `popd` preserves the stack-size invariant. -/
theorem popd_stack_le (os : OSModel) (s : Shell) (args : List String)
    (h : s.dirstack.length ≤ s.env.dirstackSize) :
    (popd os s args).1.dirstack.length ≤ s.env.dirstackSize := by
  unfold popd
  cases hp : parse_pushd args with
  | none => exact h
  | some a =>
    dsimp only
    cases hr : popd_pop s.env.pushdMinus s.dirstack a.dir with
    | error e => exact h
    | ok pr =>
      obtain ⟨np, stack1⟩ := pr
      dsimp only
      rw [finishListing_fst]
      have hle := popd_pop_stack_le s.env.pushdMinus s.dirstack a.dir np stack1 hr
      cases np with
      | none => exact le_trans hle h
      | some np =>
        dsimp only
        split
        · rw [cwd_dirstack]
          exact le_trans hle h
        · exact le_trans hle h

/-- `cd` preserves the stack-size invariant (including the `AUTO_PUSHD`
internal push, which truncates). -/
theorem cd_stack_le (os : OSModel) (s : Shell) (args : List String)
    (h : s.dirstack.length ≤ s.env.dirstackSize) :
    (cd os s args).1.dirstack.length ≤ s.env.dirstackSize := by
  unfold cd
  cases hres : cd_resolve os s.env s.dirstack args with
  | ret r => exact h
  | target d =>
    dsimp only
    split
    · split
      · split
        · dsimp only
          rw [cwd_dirstack]
          split
          · exact pushd_stack_le os s ["-n", "-q", s.env.pwd] h
          · exact h
        · exact h
      · exact h
    · exact h


/-- Claim C1.  The claim states that for `popd` and `dirs`, `+` counts
from the top under the default configuration and that setting
`PUSHD_MINUS` swaps the meanings of `+` and `-` as it does for `pushd`.
The code instead assigns the identical pair
`(BACKWARD, FORWARD) = ('-', '+')` in both branches of the `PUSHD_MINUS`
conditional of `popd` (lines 247-252) and of `dirs` (lines 344-349), so
the flag has no effect there and `+N` counts from the bottom: with stack
`[/a, /b, /c]` and `PWD = /p`, `dirs +1` returns `/b` (the entry at index
1 from the back of the listing `[/p, /a, /b, /c]`, not `/a` at index 1
from the top) whether or not the flag is set, and `popd +0` removes the
bottom entry `/c` whether or not the flag is set. -/
theorem C1_pushd_minus_ignored :
    (dirs osA (mkShell "/p" ["/a", "/b", "/c"] true false false 9) ["+1"]).2 =
      (dirs osA (mkShell "/p" ["/a", "/b", "/c"] false false false 9) ["+1"]).2 ∧
    (dirs osA (mkShell "/p" ["/a", "/b", "/c"] false false false 9) ["+1"]).2 =
      PyRet.triple (some "/b\n") none 0 ∧
    (popd osA (mkShell "/p" ["/a", "/b", "/c"] false false false 9) ["+0"]).1.dirstack =
      ["/a", "/b"] ∧
    (popd osA (mkShell "/p" ["/a", "/b", "/c"] true false false 9) ["+0"]).1.dirstack =
      ["/a", "/b"] ∧
    ("/b" : String) ≠ "/a" := by
  refine ⟨by decide, by decide, by decide, by decide, by decide⟩

/-- Claim C5, counterexample in the code: `dirs` on an argument-parse
failure (here the unknown option `-z`) returns the bare 2-tuple
`None, None` (source line 339), not a triple with an integer exit code as
the uniform contract requires. -/
theorem C5_dirs_parse_fail_pair :
    (dirs osA (mkShell "/p" [] false false false 5) ["-z"]).2 = PyRet.pair none none ∧
    PyRet.pair none none ≠ PyRet.triple none none 1 := by
  refine ⟨by decide, by decide⟩

/-- Claim C2, counterexample: a successful `pushd` with no `-n` need not
satisfy the claimed length law nor the claimed `PWD` law.  A rotation
(`pushd` with no argument, stack `[/a]`) pops one entry and pushes one, so
the length stays 1 instead of `min(1+1, 10) = 2`; and pushing the relative
existing directory `rel` from `PWD = /p` sets `PWD` to the absolute
`/p/rel`, not to the rotation target `rel` itself. -/
theorem C2_cex :
    (pushd osA (mkShell "/p" ["/a"] false false true 10) []).1.dirstack.length = 1 ∧
    (1 : Nat) ≠ min (1 + 1) 10 ∧
    (pushd osRel (mkShell "/p" [] false false true 10) ["rel"]).1.env.pwd = "/p/rel" ∧
    ("/p/rel" : String) ≠ "rel" := by
  refine ⟨by decide, by decide, by decide, by decide⟩

/-- Claim C3, counterexample: with stack `[/a, /b, /c]` and `PUSHD_MINUS`
unset, `pushd +0` addresses the boundary position, and the code leaves the
stack completely unchanged — the current working directory is NOT pushed
(the insertion at source line 200 is guarded by `new_pwd is not None`). -/
theorem C3_cex :
    (pushd osA (mkShell "/p" ["/a", "/b", "/c"] false false true 9) ["+0"]).1.dirstack =
      ["/a", "/b", "/c"] ∧
    (["/a", "/b", "/c"] : List String) ≠ ["/p", "/a", "/b", "/c"] := by
  refine ⟨by decide, by decide⟩

/-- Claim C7, counterexample: `cd +0` is not a stack-index no-op.  The
code only treats `-`-leading tokens as index references (source line 91),
so `+0` falls through to the CDPATH/path route and fails with
`no such file or directory`, exit code 1 — not the claimed successful
no-op. -/
theorem C7_cex :
    (cd osA (mkShell "/p" [] false false false 5) ["+0"]).2 =
      PyRet.triple (some "") (some "cd: no such file or directory: +0\n") 1 ∧
    PyRet.triple (some "") (some "cd: no such file or directory: +0\n") 1 ≠
      PyRet.triple none none 0 := by
  refine ⟨by decide, by decide⟩

/-- Claim C9, counterexample: with home `/h`, `PWD = /h` and stack entry
`/x/h`, the `dirs` listing shows `/x~` — the non-prefix occurrence of the
home string inside `/x/h` is replaced too (Python `str.replace` replaces
every occurrence), contradicting the claim that only a prefix is
abbreviated. -/
theorem C9_cex :
    (dirs osH (mkShell "/h" ["/x/h"] false false false 5) []).2 =
      PyRet.triple (some "~ /x~\n") none 0 ∧
    pyReplace "/x/h" "/h" "~" ≠ "/x/h" := by
  refine ⟨by decide, by decide⟩

/-- Claim C10, counterexample: with `AUTO_PUSHD` enabled, a `cd /t` whose
underlying `chdir` fails (basename `t`, not `..`) still returns the silent
success triple, but the directory stack is NOT unchanged: the old `PWD`
was auto-pushed before the failed change. -/
theorem C10_cex :
    (cd osFail (mkShell "/p" [] false true true 5) ["/t"]).2 = PyRet.triple none none 0 ∧
    (cd osFail (mkShell "/p" [] false true true 5) ["/t"]).1.dirstack = ["/p"] ∧
    (["/p"] : List String) ≠ [] := by
  refine ⟨by decide, by decide, by decide⟩

/-- Claim C8: the working-directory mutator fires exactly one
directory-changed event, carrying the old and new paths, precisely when
the call changes `PWD`, and fires nothing otherwise. -/
theorem C8_event_iff_changed (os : OSModel) (s : Shell) (newdir : String) :
    (change_working_directory os s newdir).events =
      s.events ++
        (if (change_working_directory os s newdir).env.pwd = s.env.pwd then []
         else [(s.env.pwd, (change_working_directory os s newdir).env.pwd)]) := by
  unfold change_working_directory
  dsimp only
  split
  · next h =>
    rw [if_neg (fun hh => h hh.symm)]
  · next h =>
    rw [if_pos ((not_ne_iff.mp h).symm)]
    simp

/-- Claim C9, amended: in the `dirs` listing without `-l`, every leftmost
non-overlapping occurrence of the home-directory string in an entry is
replaced with `~` (Python `str.replace` semantics), not only a prefix
occurrence.  Stated on the `-p` one-entry-per-line form for every oracle
and state. -/
theorem C9_replace_all (os : OSModel) (s : Shell) :
    (dirs os s ["-p"]).2 =
      PyRet.triple
        (some (strJoin "\n"
          ((os.expanduser s.env.pwd :: s.dirstack).map
            (fun i => pyReplace i (os.expanduser "~") "~")) ++ "\n"))
        none 0 := rfl

/-- Claim C6: each of `cd`, `pushd`, `popd`, `dirs` preserves the
invariant that the directory stack holds at most `DIRSTACK_SIZE` entries
(overflow is dropped from the tail by `pushd`'s truncation). -/
theorem C6_stack_bound (os : OSModel) (s : Shell) (args : List String)
    (h : s.dirstack.length ≤ s.env.dirstackSize) :
    (cd os s args).1.dirstack.length ≤ s.env.dirstackSize ∧
    (pushd os s args).1.dirstack.length ≤ s.env.dirstackSize ∧
    (popd os s args).1.dirstack.length ≤ s.env.dirstackSize ∧
    (dirs os s args).1.dirstack.length ≤ s.env.dirstackSize :=
  ⟨cd_stack_le os s args h, pushd_stack_le os s args h, popd_stack_le os s args h,
   le_trans (dirs_stack_le os s args) h⟩

/-- Witness for C6 at a concrete state (stack `[/a]`, size 3) and the
rotate form of each command. -/
theorem C6_stack_bound_witness :
    (cd osA (mkShell "/p" ["/a"] false false true 3) []).1.dirstack.length ≤ 3 ∧
    (pushd osA (mkShell "/p" ["/a"] false false true 3) []).1.dirstack.length ≤ 3 ∧
    (popd osA (mkShell "/p" ["/a"] false false true 3) []).1.dirstack.length ≤ 3 ∧
    (dirs osA (mkShell "/p" ["/a"] false false true 3) []).1.dirstack.length ≤ 3 :=
  C6_stack_bound osA (mkShell "/p" ["/a"] false false true 3) [] (by decide)


/-- Claim C2, amended: for every successful `pushd` without `-n` whose
positional argument names an existing directory and whose underlying
`chdir` succeeds, the stack length after the call is
`min(previous_length + 1, DIRSTACK_SIZE)` and `PWD` after the call is the
absolute normalized join of the previous `PWD` with the rotation target.
(The `+1` length law does not hold for the rotation forms, which pop one
entry before pushing — see the counterexample.) -/
theorem C2_push_existing (os : OSModel) (s : Shell) (args : List String)
    (a : PushdArgs) (d : String)
    (hp : parse_pushd args = some a) (hd : a.dir = some d) (hcd : a.cd = true)
    (hdir : os.isdir d = true)
    (hch : os.chdirOk (os.abspath (os.join s.env.pwd d)) = true) :
    (pushd os s args).1.dirstack.length =
      min (s.dirstack.length + 1) s.env.dirstackSize ∧
    (pushd os s args).1.env.pwd = os.abspath (os.join s.env.pwd d) := by
  have hr : pushd_rotate os s.env.pushdMinus s.dirstack a.dir =
      .ok (some d, s.dirstack) := by
    rw [hd]
    unfold pushd_rotate
    dsimp only
    rw [if_pos hdir]
  have hpushd : (pushd os s args).1 =
      truncStack (change_working_directory os
        { s with dirstack := os.expanduser s.env.pwd :: s.dirstack } d) := by
    unfold pushd
    rw [hp]
    dsimp only
    rw [hr]
    dsimp only
    rw [if_pos hcd]
    rw [finishListing_fst]
  rw [hpushd]
  constructor
  · rw [truncStack_length, cwd_dirstack, cwd_dirstackSize]
    simp
  · rw [truncStack_env]
    exact cwd_pwd_ok os _ d hch

/-- Witness for the amended C2 at `pushd /d` from `PWD = /p`, stack
`[/a]`, size 10. -/
theorem C2_push_existing_witness :
    (pushd osA (mkShell "/p" ["/a"] false false true 10) ["/d"]).1.dirstack.length =
      min ((mkShell "/p" ["/a"] false false true 10).dirstack.length + 1)
        (mkShell "/p" ["/a"] false false true 10).env.dirstackSize ∧
    (pushd osA (mkShell "/p" ["/a"] false false true 10) ["/d"]).1.env.pwd =
      osA.abspath (osA.join (mkShell "/p" ["/a"] false false true 10).env.pwd "/d") :=
  C2_push_existing osA (mkShell "/p" ["/a"] false false true 10) ["/d"]
    { dir := some "/d", cd := true, quiet := false } "/d"
    (by decide) rfl rfl (by decide) (by decide)

/-- Claim C3, amended: when `pushd` is given a sign-indexed argument
addressing the boundary position (`FORWARD` sign with `N` equal to the
stack length, or `BACKWARD` sign with `N = 0`), no stack entry is removed,
no directory-change target is produced, and nothing is pushed either: the
whole shell state is unchanged (given the stack is within
`DIRSTACK_SIZE`, so the trailing truncation has nothing to drop). -/
theorem C3_boundary_noop (os : OSModel) (s : Shell) (args : List String)
    (a : PushdArgs) (d : String) (n : Int)
    (hp : parse_pushd args = some a) (hd : a.dir = some d)
    (hdir : os.isdir d = false)
    (hnum : pyInt (strDrop d 1) = some n)
    (hsize : s.dirstack.length ≤ s.env.dirstackSize)
    (hcase :
      (strStarts d (if s.env.pushdMinus then "+" else "-") = true ∧
        n = (s.dirstack.length : Int)) ∨
      (strStarts d (if s.env.pushdMinus then "+" else "-") = false ∧
        strStarts d (if s.env.pushdMinus then "-" else "+") = true ∧ n = 0)) :
    (pushd os s args).1 = s := by
  have hr : pushd_rotate os s.env.pushdMinus s.dirstack a.dir =
      .ok (none, s.dirstack) := by
    rw [hd]
    unfold pushd_rotate
    dsimp only
    rw [if_neg (by simp [hdir]), hnum]
    dsimp only
    rcases hcase with ⟨hF, hn⟩ | ⟨hFn, hB, hn⟩
    · subst hn
      rw [if_neg (by omega), if_neg (by omega), if_pos hF, if_pos rfl]
    · subst hn
      rw [if_neg (by omega), if_neg (by omega), if_neg (by simp [hFn]),
        if_pos hB, if_pos rfl]
  have hpushd : (pushd os s args).1 = truncStack { s with dirstack := s.dirstack } := by
    unfold pushd
    rw [hp]
    dsimp only
    rw [hr]
    dsimp only
    rw [finishListing_fst]
  rw [hpushd]
  have heta : ({ s with dirstack := s.dirstack } : Shell) = s := rfl
  rw [heta]
  exact truncStack_id s hsize

/-- Witness for the amended C3: `pushd +0` with stack `[/a, /b, /c]` and
`PUSHD_MINUS` unset leaves the shell unchanged. -/
theorem C3_boundary_noop_witness :
    (pushd osA (mkShell "/p" ["/a", "/b", "/c"] false false false 9) ["+0"]).1 =
      mkShell "/p" ["/a", "/b", "/c"] false false false 9 :=
  C3_boundary_noop osA (mkShell "/p" ["/a", "/b", "/c"] false false false 9) ["+0"]
    { dir := some "+0", cd := true, quiet := false } "+0" 0
    (by decide) rfl (by decide) (by decide) (by decide)
    (Or.inr ⟨by decide, by decide, rfl⟩)

/-- Claim C7, amended: for `cd` with one argument whose expansion is a
minus-prefixed numeric token `-N` that does not name an existing
directory, the target is resolved as a stack index reference: `-0` is an
immediate successful no-op (state unchanged, outputs absent, exit 0), and
`0 < N ≤ stack length` resolves to the `N`-th stack entry (1-based from
the top).  Plus-prefixed tokens are not index references (see the
counterexample). -/
theorem C7_minus_index (os : OSModel) (s : Shell) (a0 d : String) (n : Int)
    (hexp : os.expanduser a0 = d) (hdir : os.isdir d = false)
    (hdash : d ≠ "-") (hsw : strStarts d "-" = true)
    (hn : pyInt (strDrop d 1) = some n) :
    (n = 0 → cd os s [a0] = (s, PyRet.triple none none 0)) ∧
    (0 < n → n ≤ (s.dirstack.length : Int) →
      cd_resolve os s.env s.dirstack [a0] =
        CdResolved.target (s.dirstack.getD (n.toNat - 1) "")) := by
  constructor
  · intro h0
    have hres : cd_resolve os s.env s.dirstack [a0] = .ret (.triple none none 0) := by
      unfold cd_resolve
      dsimp only
      rw [hexp, if_neg (by simp [hdir]), if_neg hdash, if_pos hsw, hn]
      dsimp only
      rw [if_pos h0]
    unfold cd
    rw [hres]
  · intro hpos hle
    unfold cd_resolve
    dsimp only
    rw [hexp, if_neg (by simp [hdir]), if_neg hdash, if_pos hsw, hn]
    dsimp only
    rw [if_neg (by omega), if_neg (by omega), if_neg (by omega)]

/-- Witness for the amended C7: `cd -0` is a successful no-op, and `-1`
with stack `[/a]` resolves to `/a`. -/
theorem C7_minus_index_witness :
    cd osA (mkShell "/p" ["/a"] false false false 5) ["-0"] =
      (mkShell "/p" ["/a"] false false false 5, PyRet.triple none none 0) ∧
    cd_resolve osA (mkShell "/p" ["/a"] false false false 5).env
      (mkShell "/p" ["/a"] false false false 5).dirstack ["-1"] =
      CdResolved.target "/a" :=
  ⟨(C7_minus_index osA (mkShell "/p" ["/a"] false false false 5) "-0" "-0" 0
      (by decide) (by decide) (by decide) (by decide) (by decide)).1 rfl,
   (C7_minus_index osA (mkShell "/p" ["/a"] false false false 5) "-1" "-1" 1
      (by decide) (by decide) (by decide) (by decide) (by decide)).2
     (by decide) (by decide)⟩

/-- Claim C10, amended: when `cd` resolves and validates a target but the
underlying `chdir` fails and the computed path's basename (after
stripping a trailing separator) is not `..`, `cd` returns exit code 0 with
both outputs absent and the whole shell state — `PWD`, `OLDPWD`, the
stack, and the event log — unchanged, provided `AUTO_PUSHD` is disabled
(with `AUTO_PUSHD` the current directory has already been pushed before
the failed change; see the counterexample). -/
theorem C10_failed_chdir (os : OSModel) (s : Shell) (args : List String) (d : String)
    (hres : cd_resolve os s.env s.dirstack args = .target d)
    (hex : os.pathExists d = true) (hid : os.isdir d = true) (hac : os.access d = true)
    (hap : s.env.autoPushd = false)
    (hch : os.chdirOk (os.abspath (os.join s.env.pwd d)) = false)
    (hbn : ¬ os.basename (if strEnds (os.join s.env.pwd d) os.sep then
        strDropLast (os.join s.env.pwd d) else os.join s.env.pwd d) = "..") :
    cd os s args = (s, PyRet.triple none none 0) := by
  unfold cd
  rw [hres]
  dsimp only
  rw [if_pos hex, if_pos hid, if_pos hac, if_neg (by simp [hap]),
    cwd_noop os s d hch hbn]

/-- Witness for the amended C10: `cd /t` with a failing `chdir` and
`AUTO_PUSHD` off is a silent success that changes nothing. -/
theorem C10_failed_chdir_witness :
    cd osFail (mkShell "/p" [] false false true 5) ["/t"] =
      (mkShell "/p" [] false false true 5, PyRet.triple none none 0) :=
  C10_failed_chdir osFail (mkShell "/p" [] false false true 5) ["/t"] "/t"
    (by decide) (by decide) (by decide) (by decide) (by decide) (by decide)
    (by decide)


/-- Claim C4: a successful `pushd` of an existing directory followed
immediately by an argument-less `popd`, with no truncation (stack strictly
below `DIRSTACK_SIZE`) and no intervening mutation, restores the original
`PWD` and the original stack contents.  The hypotheses record that both
underlying `chdir` calls succeed and that the external path library
resolves the pushed entry back to the original `PWD`
(`abspath(join(q, expanduser(p))) = p`, which holds for normalized
absolute `p` in a real path library). -/
theorem C4_pushd_popd_inverse (os : OSModel) (s : Shell) (d : String)
    (hp : parse_pushd [d] = some { dir := some d, cd := true, quiet := false })
    (hdir : os.isdir d = true)
    (hlen : s.dirstack.length < s.env.dirstackSize)
    (hch1 : os.chdirOk (os.abspath (os.join s.env.pwd d)) = true)
    (hch2 : os.chdirOk (os.abspath (os.join (os.abspath (os.join s.env.pwd d))
      (os.expanduser s.env.pwd))) = true)
    (hback : os.abspath (os.join (os.abspath (os.join s.env.pwd d))
      (os.expanduser s.env.pwd)) = s.env.pwd) :
    (popd os (pushd os s [d]).1 []).1.env.pwd = s.env.pwd ∧
    (popd os (pushd os s [d]).1 []).1.dirstack = s.dirstack := by
  have hr : pushd_rotate os s.env.pushdMinus s.dirstack (some d) =
      .ok (some d, s.dirstack) := by
    unfold pushd_rotate
    dsimp only
    rw [if_pos hdir]
  have hmid : (pushd os s [d]).1 =
      change_working_directory os
        { s with dirstack := os.expanduser s.env.pwd :: s.dirstack } d := by
    unfold pushd
    rw [hp]
    dsimp only
    rw [hr]
    dsimp only
    rw [if_pos (rfl : (true = true))]
    rw [finishListing_fst]
    refine truncStack_id _ ?_
    rw [cwd_dirstack, cwd_dirstackSize]
    simp only [List.length_cons]
    omega
  have hstk : (pushd os s [d]).1.dirstack =
      os.expanduser s.env.pwd :: s.dirstack := by
    rw [hmid, cwd_dirstack]
  have hpwd : (pushd os s [d]).1.env.pwd = os.abspath (os.join s.env.pwd d) := by
    rw [hmid]
    exact cwd_pwd_ok os _ d hch1
  have hpop : popd_pop (pushd os s [d]).1.env.pushdMinus (pushd os s [d]).1.dirstack
      none = .ok (some (os.expanduser s.env.pwd), s.dirstack) := by
    rw [hstk]
    rfl
  have hpopd : (popd os (pushd os s [d]).1 []).1 =
      change_working_directory os
        { (pushd os s [d]).1 with dirstack := s.dirstack }
        (os.expanduser s.env.pwd) := by
    unfold popd
    rw [show parse_pushd ([] : List String) =
      some { dir := none, cd := true, quiet := false } from rfl]
    dsimp only
    rw [hpop]
    dsimp only
    rw [if_pos (rfl : (true = true))]
    rw [finishListing_fst]
  have hXpwd : ({ (pushd os s [d]).1 with dirstack := s.dirstack } : Shell).env.pwd =
      os.abspath (os.join s.env.pwd d) := hpwd
  constructor
  · rw [hpopd]
    rw [cwd_pwd_ok os { (pushd os s [d]).1 with dirstack := s.dirstack }
      (os.expanduser s.env.pwd) (by rw [hXpwd]; exact hch2)]
    rw [hXpwd]
    exact hback
  · rw [hpopd, cwd_dirstack]

/-- Witness for C4: `pushd /d` then `popd` from `PWD = /p`, stack `[/a]`,
size 5, restores `PWD = /p` and stack `[/a]`. -/
theorem C4_pushd_popd_inverse_witness :
    (popd osA (pushd osA (mkShell "/p" ["/a"] false false true 5) ["/d"]).1 []).1.env.pwd =
      "/p" ∧
    (popd osA (pushd osA (mkShell "/p" ["/a"] false false true 5) ["/d"]).1 []).1.dirstack =
      ["/a"] :=
  C4_pushd_popd_inverse osA (mkShell "/p" ["/a"] false false true 5) "/d"
    (by decide) (by decide) (by decide) (by decide) (by decide) (by decide)

end Dirstack
